import Mathlib

/-!
Verification of the result-store managers of `celery/managers.py`
(`TaskManager` and `TaskSetManager`).

Shallow embedding. The database table behind a Django manager is modelled
as a list of records (an association list keyed by the identity field).
Each manager operation is a function from the current table (plus the
inputs the real code reads from the ambient environment: the current time
`now`, and the configured expiry `ttl`) to an outcome holding the returned
value, the table after the call, and the number of attempts performed.

Backend failures are injected through a fault schedule: a list with one
entry per attempt, `none` meaning the attempt's backend operations succeed
and `some e` meaning the attempt raises the backend error `e`; an
exhausted schedule means all further attempts succeed.  An attempt that
raises is rolled back, so it leaves the table unchanged, exactly as the
`transaction.rollback_unless_managed()` call in the source restores the
pre-attempt database state.
-/

/-- A backend (database) error as classified by the spec's error taxonomy:
the two transient-conflict shapes (duplicate identity on create, or a
transaction left unusable by a concurrent writer) and permanent failures.
The `msg` payload stands for the identity of the concrete exception
object, so that propagating the error "unchanged" is expressible. -/
inductive BackendError where
  | duplicateIdentity (msg : String)
  | transactionUnusable (msg : String)
  | permanentFailure (msg : String)
deriving Repr, DecidableEq

/-- Whether an error counts as a TransientConflict in the spec's taxonomy.
The source itself never inspects this: its handlers catch every
exception. -/
def BackendError.isTransient : BackendError → Bool
  | .duplicateIdentity _ => true
  | .transactionUnusable _ => true
  | .permanentFailure _ => false

/-- A row of the Task table: `celery.models.Task` as described by the data
model (task identity, status string, opaque result payload, optional
traceback, timestamp of last write). -/
structure TaskRecord where
  task_id : String
  status : String
  result : Option Int
  traceback : Option String
  date_done : Int
deriving Repr, DecidableEq

/-- A row of the TaskSet table: `celery.models.TaskSet` (group identity,
opaque aggregate result, timestamp of last write). -/
structure TaskSetRecord where
  taskset_id : String
  result : Int
  date_done : Int
deriving Repr, DecidableEq

/-- Outcome of one manager operation: the value returned to the caller (or
the propagated backend error), the table after the operation, and how many
attempts (initial try plus retries) were performed. -/
structure RunOutcome (α σ : Type) where
  value : Except BackendError α
  db : σ
  attempts : Nat
deriving Repr

/-- Modelled from the spec: the status a freshly materialized record gets
(`get` "atomically creates one with a default status if absent").  The
Django model class that carries the field default is not part of the
examined source; only the manager is. -/
def defaultTaskStatus : String := "PENDING"

namespace TaskManager

/-- One successful `self.get_or_create(task_id=task_id)` call (the body of
the `try` in `get_task`): return the row with this identity if present,
otherwise insert a fresh row built from the model-level field defaults.
Returns (row, created flag, table after the call). -/
def getOrCreateTask (db : List TaskRecord) (tid : String) (now : Int) :
    TaskRecord × Bool × List TaskRecord :=
  match db.find? (fun r => r.task_id == tid) with
  | some r => (r, false, db)
  | none =>
      let r : TaskRecord :=
        { task_id := tid, status := defaultTaskStatus, result := none,
          traceback := none, date_done := now }
      (r, true, db ++ [r])

/-- Default of the `exception_retry_count` keyword of `get_task`. -/
def get_task_default_retry_count : Nat := 1

/-- `TaskManager.get_task(task_id, exception_retry_count=1)`.  The fault
schedule supplies the exception (if any) raised inside each successive
`try`; on an exception the code rolls back (table unchanged) and, if
`exception_retry_count > 0`, recurses with the count decremented,
otherwise re-raises. -/
def get_task (db : List TaskRecord) (tid : String) (now : Int) :
    List (Option BackendError) → Nat → RunOutcome TaskRecord (List TaskRecord)
  | [], _ =>
      let s := getOrCreateTask db tid now
      ⟨Except.ok s.1, s.2.2, 1⟩
  | Option.none :: _, _ =>
      let s := getOrCreateTask db tid now
      ⟨Except.ok s.1, s.2.2, 1⟩
  | Option.some e :: rest, retries =>
      if 0 < retries then
        let o := get_task db tid now rest (retries - 1)
        ⟨o.value, o.db, o.attempts + 1⟩
      else
        ⟨Except.error e, db, 1⟩

/-- `TaskManager.is_successful(task_id)`: status of `get_task` equals
"SUCCESS" (fault-free call at the default retry count). -/
def is_successful (db : List TaskRecord) (tid : String) (now : Int) : Bool :=
  match (get_task db tid now [] get_task_default_retry_count).value with
  | Except.ok r => r.status == "SUCCESS"
  | Except.error _ => false

/-- `TaskManager.get_all_expired()`: `filter(date_done__lt=datetime.now()
- TASK_RESULT_EXPIRES)`.  `now` models `datetime.now()` and `ttl` the
configured `TASK_RESULT_EXPIRES`. -/
def get_all_expired (db : List TaskRecord) (now ttl : Int) : List TaskRecord :=
  db.filter (fun r => r.date_done < now - ttl)

/-- `TaskManager.delete_expired()`: deletes the queryset returned by
`get_all_expired`, so the rows that remain are exactly those the expiry
filter does not select. -/
def delete_expired (db : List TaskRecord) (now ttl : Int) : List TaskRecord :=
  db.filter (fun r => !(r.date_done < now - ttl : Bool))

/-- One successful body of the `try` in `store_result`:
`get_or_create(task_id=task_id, defaults={status, result, traceback})`
followed, when the row already existed, by overwriting `status`, `result`
and `traceback` and saving.  Either way the row for `task_id` afterwards
carries exactly the given fields; `date_done` is the save/create
timestamp (modelled from the spec: the model field auto-updates on every
write, the model class being outside the examined source). -/
def storeTaskOnce (newr : TaskRecord) : List TaskRecord → List TaskRecord
  | [] => [newr]
  | r :: rest =>
      if r.task_id == newr.task_id then newr :: rest
      else r :: storeTaskOnce newr rest

/-- Default of the `exception_retry_count` keyword of `store_result`. -/
def store_result_default_retry_count : Nat := 2

/-- Default of the `traceback` keyword of `store_result`. -/
def store_result_default_traceback : Option String := none

/-- `TaskManager.store_result(task_id, result, status, traceback=None,
exception_retry_count=2)`: upsert of the full payload with the same
rollback-and-retry wrapper as `get_task`. -/
def store_result (db : List TaskRecord) (tid : String) (res : Int)
    (status : String) (tb : Option String) (now : Int) :
    List (Option BackendError) → Nat → RunOutcome Unit (List TaskRecord)
  | [], _ =>
      ⟨Except.ok (), storeTaskOnce ⟨tid, status, some res, tb, now⟩ db, 1⟩
  | Option.none :: _, _ =>
      ⟨Except.ok (), storeTaskOnce ⟨tid, status, some res, tb, now⟩ db, 1⟩
  | Option.some e :: rest, retries =>
      if 0 < retries then
        let o := store_result db tid res status tb now rest (retries - 1)
        ⟨o.value, o.db, o.attempts + 1⟩
      else
        ⟨Except.error e, db, 1⟩

end TaskManager

namespace TaskSetManager

/-- `TaskSetManager.get_all_expired()`, same filter as the task table. -/
def get_all_expired (db : List TaskSetRecord) (now ttl : Int) :
    List TaskSetRecord :=
  db.filter (fun r => r.date_done < now - ttl)

/-- `TaskSetManager.delete_expired()`. -/
def delete_expired (db : List TaskSetRecord) (now ttl : Int) :
    List TaskSetRecord :=
  db.filter (fun r => !(r.date_done < now - ttl : Bool))

/-- `TaskSetManager.get_taskset(taskset_id)`: `self.get(...)` returning
the row, with `DoesNotExist` turned into `None`.  A pure read; the second
component is the table after the call, which the code never writes. -/
def get_taskset (db : List TaskSetRecord) (tsid : String) :
    Option TaskSetRecord × List TaskSetRecord :=
  (db.find? (fun r => r.taskset_id == tsid), db)

/-- One successful body of the `try` in `TaskSetManager.store_result`:
`get_or_create(taskset_id=taskset_id, defaults={result})` followed, when
the row existed, by overwriting `result` and saving. -/
def storeTaskSetOnce (newr : TaskSetRecord) :
    List TaskSetRecord → List TaskSetRecord
  | [] => [newr]
  | r :: rest =>
      if r.taskset_id == newr.taskset_id then newr :: rest
      else r :: storeTaskSetOnce newr rest

/-- Default of the `exception_retry` keyword of
`TaskSetManager.store_result`: a single boolean flag, not a count. -/
def store_result_default_retry : Bool := true

/-- `TaskSetManager.store_result(taskset_id, result, exception_retry=True)`:
on an exception, if the flag is set, roll back and re-run the whole
operation once with the flag cleared; otherwise re-raise. -/
def store_result (db : List TaskSetRecord) (tsid : String) (res : Int)
    (now : Int) :
    List (Option BackendError) → Bool → RunOutcome Unit (List TaskSetRecord)
  | [], _ =>
      ⟨Except.ok (), storeTaskSetOnce ⟨tsid, res, now⟩ db, 1⟩
  | Option.none :: _, _ =>
      ⟨Except.ok (), storeTaskSetOnce ⟨tsid, res, now⟩ db, 1⟩
  | Option.some e :: rest, flag =>
      if flag then
        let o := store_result db tsid res now rest false
        ⟨o.value, o.db, o.attempts + 1⟩
      else
        ⟨Except.error e, db, 1⟩

end TaskSetManager

/-! Helper lemmas shared by several claims. -/

/-- With a schedule of `es.length` failing attempts followed by one more
failure, a budget equal to `es.length` is exhausted: `get_task` performs
all `es.length + 1` attempts, leaves the table unchanged, and propagates
the error of the final attempt. -/
theorem get_task_exhausts (db : List TaskRecord) (tid : String) (now : Int)
    (es : List BackendError) (e : BackendError) :
    TaskManager.get_task db tid now ((es ++ [e]).map some) es.length =
      ⟨Except.error e, db, es.length + 1⟩ := by
  induction es with
  | nil => simp [TaskManager.get_task]
  | cons x xs ih =>
      simp only [List.map_append, List.map_cons, List.map_nil] at ih
      simp [TaskManager.get_task, ih]

/-- Same exhaustion behaviour for `store_result`. -/
theorem store_result_exhausts (db : List TaskRecord) (tid : String)
    (res : Int) (st : String) (tb : Option String) (now : Int)
    (es : List BackendError) (e : BackendError) :
    TaskManager.store_result db tid res st tb now ((es ++ [e]).map some)
        es.length =
      ⟨Except.error e, db, es.length + 1⟩ := by
  induction es with
  | nil => simp [TaskManager.store_result]
  | cons x xs ih =>
      simp only [List.map_append, List.map_cons, List.map_nil] at ih
      simp [TaskManager.store_result, ih]

/-- With at most as many failing attempts as the budget, `get_task`
reaches a clean attempt and succeeds, regardless of how the injected
errors are classified. -/
theorem get_task_recovers (db : List TaskRecord) (tid : String) (now : Int)
    (es : List BackendError) (n : Nat) (h : es.length ≤ n) :
    TaskManager.get_task db tid now (es.map some) n =
      ⟨Except.ok (TaskManager.getOrCreateTask db tid now).1,
       (TaskManager.getOrCreateTask db tid now).2.2, es.length + 1⟩ := by
  induction es generalizing n with
  | nil => simp [TaskManager.get_task]
  | cons x xs ih =>
      match n with
      | 0 => simp at h
      | m + 1 =>
          have hm : xs.length ≤ m := by simpa using h
          simp [TaskManager.get_task, ih m hm]

/-- With at most as many failing attempts as the budget, `store_result`
reaches a clean attempt and succeeds, regardless of how the injected
errors are classified. -/
theorem store_result_recovers (db : List TaskRecord) (tid : String)
    (res : Int) (st : String) (tb : Option String) (now : Int)
    (es : List BackendError) (n : Nat) (h : es.length ≤ n) :
    TaskManager.store_result db tid res st tb now (es.map some) n =
      ⟨Except.ok (), TaskManager.storeTaskOnce ⟨tid, st, some res, tb, now⟩ db,
       es.length + 1⟩ := by
  induction es generalizing n with
  | nil => simp [TaskManager.store_result]
  | cons x xs ih =>
      match n with
      | 0 => simp at h
      | m + 1 =>
          have hm : xs.length ≤ m := by simpa using h
          simp [TaskManager.store_result, ih m hm]

/-- After `storeTaskOnce`, looking the stored identity up finds exactly
the freshly written row. -/
theorem find?_storeTaskOnce (db : List TaskRecord) (newr : TaskRecord)
    (tid : String) (h : newr.task_id = tid) :
    (TaskManager.storeTaskOnce newr db).find? (fun r => r.task_id == tid) =
      some newr := by
  induction db with
  | nil => simp [TaskManager.storeTaskOnce, List.find?, h]
  | cons r rest ih =>
      by_cases hr : r.task_id = newr.task_id
      · simp [TaskManager.storeTaskOnce, hr, List.find?_cons, h]
      · have hrt : ¬ r.task_id = tid := fun hh => hr (hh.trans h.symm)
        simp [TaskManager.storeTaskOnce, hr, List.find?_cons, hrt, ih]

/-- Searching an appended list when the first part has no match. -/
theorem find?_append_of_none {l1 l2 : List TaskRecord}
    {p : TaskRecord → Bool} (h : l1.find? p = none) :
    (l1 ++ l2).find? p = l2.find? p := by
  rw [List.find?_append, h, Option.none_or]

/-! The claims. -/

/-- C1: `get_task` defaults to 1 retry beyond the initial attempt and
`store_result` defaults to 2; for every caller-supplied budget `n ≥ 0`,
when every attempt fails with a transient conflict, both operations
perform exactly `n + 1` attempts and then propagate the error raised by
the final attempt unchanged, with the table left unchanged (no records
persisted). -/
theorem claim_C1_retry_defaults_and_exhaustion :
    TaskManager.get_task_default_retry_count = 1 ∧
    TaskManager.store_result_default_retry_count = 2 ∧
    ∀ (db : List TaskRecord) (tid : String) (now : Int) (n : Nat)
      (es : List BackendError) (e : BackendError),
      es.length = n →
      (∀ x ∈ es ++ [e], x.isTransient = true) →
      TaskManager.get_task db tid now ((es ++ [e]).map some) n =
        ⟨Except.error e, db, n + 1⟩ ∧
      ∀ (res : Int) (st : String) (tb : Option String),
        TaskManager.store_result db tid res st tb now
            ((es ++ [e]).map some) n =
          ⟨Except.error e, db, n + 1⟩ := by
  refine ⟨rfl, rfl, ?_⟩
  intro db tid now n es e hlen _
  subst hlen
  exact ⟨get_task_exhausts db tid now es e,
    fun res st tb => store_result_exhausts db tid res st tb now es e⟩

/-- Witness for C1: a 3-total-attempt `store_result` budget (the default)
and a 2-retry `get_task` budget, against a schedule of three transient
conflicts, perform exactly 3 attempts, propagate the final conflict, and
persist nothing. -/
theorem claim_C1_retry_defaults_and_exhaustion_witness :
    ([BackendError.duplicateIdentity "dup", BackendError.transactionUnusable "tx"] : List BackendError).length = 2 ∧
    (∀ x ∈ ([BackendError.duplicateIdentity "dup", BackendError.transactionUnusable "tx"] ++ [BackendError.duplicateIdentity "fin"] : List BackendError),
      x.isTransient = true) ∧
    TaskManager.get_task [] "t" 0
        (([BackendError.duplicateIdentity "dup", BackendError.transactionUnusable "tx"] ++ [BackendError.duplicateIdentity "fin"]).map some) 2 =
      ⟨Except.error (BackendError.duplicateIdentity "fin"), [], 3⟩ ∧
    TaskManager.store_result [] "t" 7 "SUCCESS" none 0
        (([BackendError.duplicateIdentity "dup", BackendError.transactionUnusable "tx"] ++ [BackendError.duplicateIdentity "fin"]).map some) 2 =
      ⟨Except.error (BackendError.duplicateIdentity "fin"), [], 3⟩ := by
  refine ⟨by decide, by decide, ?_, ?_⟩
  · exact (claim_C1_retry_defaults_and_exhaustion.2.2 [] "t" 0 2
      [BackendError.duplicateIdentity "dup", BackendError.transactionUnusable "tx"]
      (BackendError.duplicateIdentity "fin") (by decide) (by decide)).1
  · exact (claim_C1_retry_defaults_and_exhaustion.2.2 [] "t" 0 2
      [BackendError.duplicateIdentity "dup", BackendError.transactionUnusable "tx"]
      (BackendError.duplicateIdentity "fin") (by decide) (by decide)).2 7 "SUCCESS" none

/-- C2 is false on this code: the `except Exception` handlers catch every
exception, so a permanent backend failure on the first attempt of
`get_task` (default budget: one retry) is not propagated immediately and
does consume a retry attempt — the call rolls back, retries, and returns
successfully. -/
theorem claim_C2_counterexample :
    (BackendError.permanentFailure "disk failure").isTransient = false ∧
    TaskManager.get_task [] "t" 0
        [some (BackendError.permanentFailure "disk failure"), none]
        TaskManager.get_task_default_retry_count =
      ⟨Except.ok ⟨"t", defaultTaskStatus, none, none, 0⟩,
       [⟨"t", defaultTaskStatus, none, none, 0⟩], 2⟩ :=
  ⟨rfl, rfl⟩

/-- C2 (amended): the handlers in `get_task` and `store_result` cannot
classify backend errors and catch all of them, so every backend error —
transient or permanent — raised during either operation is handled by
rollback-and-retry while retry attempts remain, and an error propagates
to the caller, unchanged, exactly when it strikes with the budget
exhausted. -/
theorem claim_C2_catch_all_retry :
    ∀ (db : List TaskRecord) (tid : String) (now : Int)
      (es : List BackendError) (n : Nat),
      (es.length ≤ n →
        TaskManager.get_task db tid now (es.map some) n =
          ⟨Except.ok (TaskManager.getOrCreateTask db tid now).1,
           (TaskManager.getOrCreateTask db tid now).2.2, es.length + 1⟩ ∧
        ∀ (res : Int) (st : String) (tb : Option String),
          TaskManager.store_result db tid res st tb now (es.map some) n =
            ⟨Except.ok (),
             TaskManager.storeTaskOnce ⟨tid, st, some res, tb, now⟩ db,
             es.length + 1⟩) ∧
      ∀ (e : BackendError), es.length = n →
        TaskManager.get_task db tid now ((es ++ [e]).map some) n =
          ⟨Except.error e, db, n + 1⟩ ∧
        ∀ (res : Int) (st : String) (tb : Option String),
          TaskManager.store_result db tid res st tb now
              ((es ++ [e]).map some) n =
            ⟨Except.error e, db, n + 1⟩ := by
  intro db tid now es n
  constructor
  · intro hle
    exact ⟨get_task_recovers db tid now es n hle,
      fun res st tb => store_result_recovers db tid res st tb now es n hle⟩
  · intro e hlen
    subst hlen
    exact ⟨get_task_exhausts db tid now es e,
      fun res st tb => store_result_exhausts db tid res st tb now es e⟩

/-- Witness for the amended C2: a schedule holding a permanent failure is
retried through just like a transient one, and with the budget exhausted
the final (permanent) error propagates unchanged. -/
theorem claim_C2_catch_all_retry_witness :
    (([BackendError.permanentFailure "p1", BackendError.transactionUnusable "t1"] : List BackendError).length ≤ 2 ∧
      TaskManager.get_task [] "t" 0
          (([BackendError.permanentFailure "p1", BackendError.transactionUnusable "t1"] : List BackendError).map some) 2 =
        ⟨Except.ok (TaskManager.getOrCreateTask [] "t" 0).1,
         (TaskManager.getOrCreateTask [] "t" 0).2.2, 3⟩) ∧
    (([BackendError.permanentFailure "p1", BackendError.transactionUnusable "t1"] : List BackendError).length = 2 ∧
      TaskManager.store_result [] "t" 5 "FAILURE" (some "tb") 0
          (([BackendError.permanentFailure "p1", BackendError.transactionUnusable "t1"] ++ [BackendError.permanentFailure "p2"]).map some) 2 =
        ⟨Except.error (BackendError.permanentFailure "p2"), [], 3⟩) := by
  constructor
  · exact ⟨by decide,
      (claim_C2_catch_all_retry [] "t" 0
        [BackendError.permanentFailure "p1", BackendError.transactionUnusable "t1"] 2).1 (by decide) |>.1⟩
  · exact ⟨by decide,
      ((claim_C2_catch_all_retry [] "t" 0
        [BackendError.permanentFailure "p1", BackendError.transactionUnusable "t1"] 2).2
        (BackendError.permanentFailure "p2") (by decide)).2 5 "FAILURE" (some "tb")⟩

/-- C6: `TaskSetManager.store_result` defaults its `exception_retry` flag
to true; on a failure it re-runs the whole operation exactly once with
the flag cleared, so two consecutive failures give 2 total attempts and
propagate the second error, while with the flag cleared a single failure
propagates at once; a clean second attempt stores the row. -/
theorem claim_C6_taskset_boolean_retry :
    TaskSetManager.store_result_default_retry = true ∧
    ∀ (db : List TaskSetRecord) (tsid : String) (res : Int) (now : Int)
      (e1 e2 : BackendError) (rest : List (Option BackendError)),
      TaskSetManager.store_result db tsid res now
          (some e1 :: some e2 :: rest) true =
        ⟨Except.error e2, db, 2⟩ ∧
      TaskSetManager.store_result db tsid res now [some e1] true =
        ⟨Except.ok (), TaskSetManager.storeTaskSetOnce ⟨tsid, res, now⟩ db, 2⟩ ∧
      TaskSetManager.store_result db tsid res now (some e1 :: rest) false =
        ⟨Except.error e1, db, 1⟩ := by
  refine ⟨rfl, ?_⟩
  intro db tsid res now e1 e2 rest
  refine ⟨?_, ?_, ?_⟩ <;> simp [TaskSetManager.store_result]

/-- C7: for both stores, the expiry queryset contains exactly the rows
with `date_done` strictly below `now - ttl`, and the sweep leaves exactly
the rows at or above that cutoff, each entirely unchanged. -/
theorem claim_C7_expiry_sweep :
    ∀ (dbt : List TaskRecord) (dbs : List TaskSetRecord) (now ttl : Int)
      (r : TaskRecord) (s : TaskSetRecord),
      (r ∈ TaskManager.get_all_expired dbt now ttl ↔
        r ∈ dbt ∧ r.date_done < now - ttl) ∧
      (r ∈ TaskManager.delete_expired dbt now ttl ↔
        r ∈ dbt ∧ ¬ r.date_done < now - ttl) ∧
      (s ∈ TaskSetManager.get_all_expired dbs now ttl ↔
        s ∈ dbs ∧ s.date_done < now - ttl) ∧
      (s ∈ TaskSetManager.delete_expired dbs now ttl ↔
        s ∈ dbs ∧ ¬ s.date_done < now - ttl) := by
  intro dbt dbs now ttl r s
  refine ⟨?_, ?_, ?_, ?_⟩ <;>
    simp [TaskManager.get_all_expired, TaskManager.delete_expired,
      TaskSetManager.get_all_expired, TaskSetManager.delete_expired,
      List.mem_filter]

/-- C3: `get_task` never reports "not found": for every identity it
returns a record with that identity — the stored one when present
(leaving the table unchanged), otherwise a freshly created one carrying
the default status. -/
theorem claim_C3_get_materializes :
    ∀ (db : List TaskRecord) (tid : String) (now : Int) (k : Nat),
      ∃ r : TaskRecord,
        (TaskManager.get_task db tid now [] k).value = Except.ok r ∧
        r.task_id = tid ∧
        match db.find? (fun x => x.task_id == tid) with
        | some q => r = q ∧ (TaskManager.get_task db tid now [] k).db = db
        | none =>
            r.status = defaultTaskStatus ∧
            (TaskManager.get_task db tid now [] k).db = db ++ [r] := by
  intro db tid now k
  cases hfind : db.find? (fun x => x.task_id == tid) with
  | some q =>
      have hq : q.task_id = tid := by
        have hp := List.find?_some hfind
        simpa using hp
      refine ⟨q, ?_, hq, ?_, ?_⟩ <;>
        simp [TaskManager.get_task, TaskManager.getOrCreateTask, hfind]
  | none =>
      refine ⟨⟨tid, defaultTaskStatus, none, none, now⟩, ?_, rfl, rfl, ?_⟩ <;>
        simp [TaskManager.get_task, TaskManager.getOrCreateTask, hfind]

/-- C4: two successive fault-free upserts of the same identity followed by
a `get_task` return exactly the second payload: status, result and
traceback are all fully overwritten, nothing is merged from the first. -/
theorem claim_C4_upsert_overwrites :
    ∀ (db : List TaskRecord) (tid : String) (r1 : Int) (s1 : String)
      (tb1 : Option String) (now1 : Int) (r2 : Int) (s2 : String)
      (tb2 : Option String) (now2 now3 : Int) (k1 k2 k3 : Nat),
      (TaskManager.get_task
          (TaskManager.store_result
              (TaskManager.store_result db tid r1 s1 tb1 now1 [] k1).db
              tid r2 s2 tb2 now2 [] k2).db
          tid now3 [] k3).value =
        Except.ok ⟨tid, s2, some r2, tb2, now2⟩ := by
  intro db tid r1 s1 tb1 now1 r2 s2 tb2 now2 now3 k1 k2 k3
  have h2 := find?_storeTaskOnce
    ((TaskManager.store_result db tid r1 s1 tb1 now1 [] k1).db)
    ⟨tid, s2, some r2, tb2, now2⟩ tid rfl
  simp only [TaskManager.store_result] at h2 ⊢
  simp [TaskManager.get_task, TaskManager.getOrCreateTask, h2]

/-- C5: a taskset lookup for an absent identity returns the explicit
absent outcome and writes nothing, so repeating it still returns absent —
unlike `get_task`, which materializes a row for an absent identity. -/
theorem claim_C5_taskset_get_absent :
    ∀ (db : List TaskSetRecord) (tsid : String),
      db.find? (fun r => r.taskset_id == tsid) = none →
      (TaskSetManager.get_taskset db tsid).1 = none ∧
      (TaskSetManager.get_taskset db tsid).2 = db ∧
      (TaskSetManager.get_taskset
          (TaskSetManager.get_taskset db tsid).2 tsid).1 = none ∧
      ∀ (dbt : List TaskRecord) (tid : String) (now : Int) (k : Nat),
        dbt.find? (fun r => r.task_id == tid) = none →
        (TaskManager.get_task dbt tid now [] k).db =
          dbt ++ [⟨tid, defaultTaskStatus, none, none, now⟩] := by
  intro db tsid h
  refine ⟨h, rfl, h, ?_⟩
  intro dbt tid now k h2
  simp [TaskManager.get_task, TaskManager.getOrCreateTask, h2]

/-- Witness for C5: on the empty store, a taskset lookup for "g" is
absent twice with no row created, while `get_task` for "t" creates the
default row. -/
theorem claim_C5_taskset_get_absent_witness :
    (([] : List TaskSetRecord).find? (fun r => r.taskset_id == "g") = none) ∧
    (TaskSetManager.get_taskset [] "g").1 = none ∧
    (TaskSetManager.get_taskset [] "g").2 = [] ∧
    (TaskSetManager.get_taskset (TaskSetManager.get_taskset [] "g").2 "g").1 = none ∧
    (([] : List TaskRecord).find? (fun r => r.task_id == "t") = none) ∧
    (TaskManager.get_task [] "t" 0 [] 1).db =
      [] ++ [⟨"t", defaultTaskStatus, none, none, 0⟩] := by
  have h := claim_C5_taskset_get_absent [] "g" rfl
  exact ⟨rfl, h.1, h.2.1, h.2.2.1, rfl, h.2.2.2 [] "t" 0 1 rfl⟩

/-- C8: two fault-free `get_task` calls with no intervening write return
the same record (same identity, same status, in fact equal), and the
second call leaves the table exactly as the first left it. -/
theorem claim_C8_get_is_read_only :
    ∀ (db : List TaskRecord) (tid : String) (now1 now2 : Int) (k1 k2 : Nat),
      ∃ r1 r2 : TaskRecord,
        (TaskManager.get_task db tid now1 [] k1).value = Except.ok r1 ∧
        (TaskManager.get_task (TaskManager.get_task db tid now1 [] k1).db
            tid now2 [] k2).value = Except.ok r2 ∧
        r2 = r1 ∧ r2.task_id = r1.task_id ∧ r2.status = r1.status ∧
        (TaskManager.get_task (TaskManager.get_task db tid now1 [] k1).db
            tid now2 [] k2).db =
          (TaskManager.get_task db tid now1 [] k1).db := by
  intro db tid now1 now2 k1 k2
  cases hfind : db.find? (fun x => x.task_id == tid) with
  | some q =>
      refine ⟨q, q, ?_, ?_, rfl, rfl, rfl, ?_⟩ <;>
        simp [TaskManager.get_task, TaskManager.getOrCreateTask, hfind]
  | none =>
      have h2 : (db ++ [(⟨tid, defaultTaskStatus, none, none, now1⟩ : TaskRecord)]).find?
          (fun x => x.task_id == tid) =
          some ⟨tid, defaultTaskStatus, none, none, now1⟩ := by
        rw [find?_append_of_none hfind]
        simp [List.find?_cons]
      refine ⟨⟨tid, defaultTaskStatus, none, none, now1⟩,
        ⟨tid, defaultTaskStatus, none, none, now1⟩, ?_, ?_, rfl, rfl, rfl, ?_⟩ <;>
        simp [TaskManager.get_task, TaskManager.getOrCreateTask, hfind, h2]

/-- C9: the create race, modelled as its losing side: a first-time
`get_task` materializes the row, and a second `get_task` whose first
attempt hits the duplicate-identity conflict (the backend having been
beaten to the insert) rolls back, retries within the default budget,
and returns the same row: both calls succeed with equal identity and
exactly one row for the identity is persisted. -/
theorem claim_C9_create_race :
    ∀ (db : List TaskRecord) (tid : String) (now1 now2 : Int) (msg : String),
      db.find? (fun r => r.task_id == tid) = none →
      ∃ r1 r2 : TaskRecord,
        (TaskManager.get_task db tid now1 []
            TaskManager.get_task_default_retry_count).value = Except.ok r1 ∧
        (TaskManager.get_task
            (TaskManager.get_task db tid now1 []
              TaskManager.get_task_default_retry_count).db
            tid now2 [some (BackendError.duplicateIdentity msg), none]
            TaskManager.get_task_default_retry_count).value = Except.ok r2 ∧
        r2 = r1 ∧ r1.task_id = tid ∧
        (TaskManager.get_task
            (TaskManager.get_task db tid now1 []
              TaskManager.get_task_default_retry_count).db
            tid now2 [some (BackendError.duplicateIdentity msg), none]
            TaskManager.get_task_default_retry_count).db =
          (TaskManager.get_task db tid now1 []
            TaskManager.get_task_default_retry_count).db ∧
        ((TaskManager.get_task db tid now1 []
            TaskManager.get_task_default_retry_count).db.filter
            (fun r => r.task_id == tid)).length = 1 := by
  intro db tid now1 now2 msg hfind
  have hfilter : db.filter (fun r => r.task_id == tid) = [] := by
    rw [List.filter_eq_nil_iff]
    intro a ha
    have hp := List.find?_eq_none.mp hfind a ha
    simpa using hp
  have h2 : (db ++ [(⟨tid, defaultTaskStatus, none, none, now1⟩ : TaskRecord)]).find?
      (fun x => x.task_id == tid) =
      some ⟨tid, defaultTaskStatus, none, none, now1⟩ := by
    rw [find?_append_of_none hfind]
    simp [List.find?_cons]
  refine ⟨⟨tid, defaultTaskStatus, none, none, now1⟩,
    ⟨tid, defaultTaskStatus, none, none, now1⟩, ?_, ?_, rfl, rfl, ?_, ?_⟩ <;>
    simp [TaskManager.get_task, TaskManager.get_task_default_retry_count,
      TaskManager.getOrCreateTask, hfind, h2, hfilter, List.filter_append]

/-- Witness for C9: the race on the empty store for identity "t". -/
theorem claim_C9_create_race_witness :
    (([] : List TaskRecord).find? (fun r => r.task_id == "t") = none) ∧
    (∃ r1 r2 : TaskRecord,
      (TaskManager.get_task [] "t" 3 []
          TaskManager.get_task_default_retry_count).value = Except.ok r1 ∧
      (TaskManager.get_task
          (TaskManager.get_task [] "t" 3 []
            TaskManager.get_task_default_retry_count).db
          "t" 4 [some (BackendError.duplicateIdentity "dup"), none]
          TaskManager.get_task_default_retry_count).value = Except.ok r2 ∧
      r2 = r1 ∧ r1.task_id = "t" ∧
      (TaskManager.get_task
          (TaskManager.get_task [] "t" 3 []
            TaskManager.get_task_default_retry_count).db
          "t" 4 [some (BackendError.duplicateIdentity "dup"), none]
          TaskManager.get_task_default_retry_count).db =
        (TaskManager.get_task [] "t" 3 []
          TaskManager.get_task_default_retry_count).db ∧
      ((TaskManager.get_task [] "t" 3 []
          TaskManager.get_task_default_retry_count).db.filter
          (fun r => r.task_id == "t")).length = 1) :=
  ⟨rfl, claim_C9_create_race [] "t" 3 4 "dup" rfl⟩

/-- C10: storing with the `traceback` keyword left at its default
overwrites a previously stored non-absent traceback with the absent
value: the old traceback is cleared, not preserved. -/
theorem claim_C10_default_traceback_clears :
    ∀ (db : List TaskRecord) (tid : String) (q : TaskRecord) (tb : String)
      (res : Int) (st : String) (now : Int) (k : Nat),
      db.find? (fun r => r.task_id == tid) = some q →
      q.traceback = some tb →
      (TaskManager.store_result db tid res st
          TaskManager.store_result_default_traceback now [] k).db.find?
          (fun r => r.task_id == tid) =
        some ⟨tid, st, some res, none, now⟩ := by
  intro db tid q tb res st now k hfind htb
  have h := find?_storeTaskOnce db ⟨tid, st, some res, none, now⟩ tid rfl
  simpa [TaskManager.store_result,
    TaskManager.store_result_default_traceback] using h

/-- Witness for C10: the stored record for "t" holds traceback "boom";
an upsert with the default traceback leaves the row with no traceback. -/
theorem claim_C10_default_traceback_clears_witness :
    ([(⟨"t", "FAILURE", some 1, some "boom", 0⟩ : TaskRecord)].find?
        (fun r => r.task_id == "t") =
      some ⟨"t", "FAILURE", some 1, some "boom", 0⟩) ∧
    ((⟨"t", "FAILURE", some 1, some "boom", 0⟩ : TaskRecord).traceback =
      some "boom") ∧
    (TaskManager.store_result [⟨"t", "FAILURE", some 1, some "boom", 0⟩]
        "t" 2 "SUCCESS" TaskManager.store_result_default_traceback 5 []
        2).db.find? (fun r => r.task_id == "t") =
      some ⟨"t", "SUCCESS", some 2, none, 5⟩ :=
  ⟨rfl, rfl, claim_C10_default_traceback_clears
    [⟨"t", "FAILURE", some 1, some "boom", 0⟩] "t"
    ⟨"t", "FAILURE", some 1, some "boom", 0⟩ "boom" 2 "SUCCESS" 5 2 rfl rfl⟩
